import Mathlib

/-!
Shallow embedding of the carpet production calculation engine of this
repository (engine.py).  Python floats are modelled as exact rationals,
Python round(x, n) (round half to even) is modelled by roundQ n, Python
int() truncation by truncQ, and functions that raise ValueError return
Except String instead.
-/

namespace Engine

/-- Constant CONSTANTS.NE_TO_NM_FACTOR = 1.6535 (ISO 7211-5). -/
def NE_TO_NM_FACTOR : ℚ := 16535 / 10000

/-- Constant CONSTANTS.DTEX_NM_BASE = 10000.0. -/
def DTEX_NM_BASE : ℚ := 10000

/-- Constant CONSTANTS.HAV_FORMULA_DIVISOR = 10000000.0. -/
def HAV_FORMULA_DIVISOR : ℚ := 10000000

/-- Constant CONSTANTS.VARDIYA_SAATI = 8 (standard shift length, hours). -/
def VARDIYA_SAATI : ℚ := 8

/-- Round-half-to-even of a rational to an integer, the tie-breaking rule
of Python round on the exact value. -/
def rhe (x : ℚ) : ℤ :=
  if x - ⌊x⌋ < 1 / 2 then ⌊x⌋
  else if 1 / 2 < x - ⌊x⌋ then ⌊x⌋ + 1
  else if ⌊x⌋ % 2 = 0 then ⌊x⌋ else ⌊x⌋ + 1

/-- Model of Python round(x, n): round to n decimal places, half to even. -/
def roundQ (n : ℕ) (x : ℚ) : ℚ := (rhe (x * 10 ^ n) : ℚ) / 10 ^ n

/-- Model of Python int() applied to a float: truncation toward zero. -/
def truncQ (x : ℚ) : ℤ := if x < 0 then ⌈x⌉ else ⌊x⌋

/-- Record UretimGirdileri of engine.py (production inputs). -/
structure UretimGirdileri where
  tarak_no          : ℤ
  atki_sikligi      : ℤ
  hav_yuksekligi    : ℚ
  baglanti_payi     : ℚ
  fire_orani        : ℚ
  high_bulk_faktoru : ℚ
  iplik_birimi      : String
  iplik_degeri      : ℚ
  atki_iplik_ne     : ℚ
  cozgu_iplik_nm    : ℚ
  hali_genisligi    : ℚ
  toplam_metraj     : ℚ
  makine_hizi       : ℤ
  verimlilik        : ℚ
  creel_kapasitesi  : ℤ
  renk_sayisi       : ℤ
  iplik_birim_fiyat : ℚ
  atki_birim_fiyat  : ℚ
  cozgu_birim_fiyat : ℚ
deriving DecidableEq

/-- Record CreelPlan of engine.py. -/
structure CreelPlan where
  toplam_dis      : ℤ
  renk_basi_dis   : ℚ
  renk_basi_bobin : ℤ
  toplam_bobin    : ℤ
  kapasite_asimi  : Bool
  kullanim_orani  : ℚ
deriving DecidableEq

/-- Record MaliyetSonucu of engine.py (cost result). -/
structure MaliyetSonucu where
  hav_maliyet   : ℚ
  atki_maliyet  : ℚ
  cozgu_maliyet : ℚ
  toplam        : ℚ
  maliyet_m2    : ℚ
deriving DecidableEq

/-- Record UretimSuresi of engine.py (production time result). -/
structure UretimSuresi where
  dakika         : ℚ
  saat           : ℚ
  gun_24h        : ℚ
  is_gunu_8h     : ℚ
  vardiya_sayisi : ℚ
  gun_3vardiya   : ℚ
deriving DecidableEq

/-- Record HesaplamaSonuclari of engine.py (orchestrator result). -/
structure HesaplamaSonuclari where
  dtex_degeri       : ℚ
  nm_degeri         : ℚ
  atki_nm           : ℚ
  hav_tuketim_kg_m2 : ℚ
  toplam_hav_kg     : ℚ
  toplam_atki_kg    : ℚ
  toplam_cozgu_kg   : ℚ
  toplam_iplik_kg   : ℚ
  alan_m2           : ℚ
  sure              : UretimSuresi
  creel             : CreelPlan
  maliyet           : MaliyetSonucu
deriving DecidableEq

/-- Record OptimizasyonSatiri of engine.py (one sweep row). -/
structure OptimizasyonSatiri where
  hav_mm        : ℚ
  tuketim_kg_m2 : ℚ
  toplam_kg     : ℚ
  tasarruf_kg   : ℚ
  tasarruf_tl   : ℚ
deriving DecidableEq

/-- Function dtex_to_nm of engine.py. -/
def dtex_to_nm (dtex : ℚ) : Except String ℚ :=
  if dtex ≤ 0 then .error "dtex pozitif olmali"
  else .ok (DTEX_NM_BASE / dtex)

/-- Function nm_to_dtex of engine.py. -/
def nm_to_dtex (nm : ℚ) : Except String ℚ :=
  if nm ≤ 0 then .error "Nm pozitif olmali"
  else .ok (DTEX_NM_BASE / nm)

/-- Function ne_to_nm of engine.py. -/
def ne_to_nm (ne : ℚ) : Except String ℚ :=
  if ne ≤ 0 then .error "Ne pozitif olmali"
  else .ok (ne * NE_TO_NM_FACTOR)

/-- Function nm_to_ne of engine.py. -/
def nm_to_ne (nm : ℚ) : Except String ℚ :=
  if nm ≤ 0 then .error "Nm pozitif olmali"
  else .ok (nm / NE_TO_NM_FACTOR)

/-- Function resolve_dtex_nm of engine.py. -/
def resolve_dtex_nm (birimi : String) (deger : ℚ) : Except String (ℚ × ℚ) :=
  if birimi = "dtex" then
    match dtex_to_nm deger with
    | .error e => .error e
    | .ok nm => .ok (deger, nm)
  else if birimi = "Nm" then
    match nm_to_dtex deger with
    | .error e => .error e
    | .ok d => .ok (d, deger)
  else .error "Bilinmeyen iplik birimi"

/-- The pile consumption formula of hav_iplik_tuketimi_hesapla before the
final rounding: dtex x reed x pick x loop length (m) x (1+waste) x
high-bulk divided by 10^7. -/
def hav_raw (dtex : ℚ) (reed pick : ℤ) (hav_mm baglanti_mm fire_orani high_bulk_faktoru : ℚ) : ℚ :=
  dtex * (reed : ℚ) * (pick : ℚ) * ((2 * hav_mm + baglanti_mm) / 1000)
    * (1 + fire_orani) * high_bulk_faktoru / HAV_FORMULA_DIVISOR

/-- Function hav_iplik_tuketimi_hesapla of engine.py (pile yarn
consumption, kg per square meter, rounded to 4 decimals). -/
def hav_iplik_tuketimi_hesapla (dtex : ℚ) (reed pick : ℤ)
    (hav_mm baglanti_mm fire_orani high_bulk_faktoru : ℚ) : Except String ℚ :=
  if dtex ≤ 0 then .error "dtex pozitif olmali"
  else if reed ≤ 0 then .error "Reed pozitif olmali"
  else if pick ≤ 0 then .error "Pick pozitif olmali"
  else if hav_mm ≤ 0 then .error "Hav yuksekligi pozitif olmali"
  else if baglanti_mm < 0 then .error "Baglanti payi negatif olamaz"
  else if fire_orani < 0 then .error "Fire orani negatif olamaz"
  else if high_bulk_faktoru < 1 then .error "High-Bulk 1.0 veya buyuk olmali"
  else .ok (roundQ 4 (hav_raw dtex reed pick hav_mm baglanti_mm fire_orani high_bulk_faktoru))

/-- The weft consumption formula of atki_iplik_hesapla before the final
rounding. -/
def atki_raw (pick : ℤ) (genislik_m metraj atki_nm fire_orani : ℚ) : ℚ :=
  (pick : ℚ) * metraj * genislik_m / (atki_nm * 1000) * (1 + fire_orani)

/-- Function atki_iplik_hesapla of engine.py (weft yarn consumption, kg,
rounded to 2 decimals).  Note: the weft insertion density pick is not
validated by the source. -/
def atki_iplik_hesapla (pick : ℤ) (genislik_m metraj atki_nm fire_orani : ℚ) : Except String ℚ :=
  if atki_nm ≤ 0 then .error "Atki Nm pozitif olmali"
  else if genislik_m ≤ 0 ∨ metraj ≤ 0 then .error "Genislik ve metraj pozitif olmali."
  else .ok (roundQ 2 (atki_raw pick genislik_m metraj atki_nm fire_orani))

/-- The warp consumption formula of cozgu_iplik_hesapla before the final
rounding. -/
def cozgu_raw (reed : ℤ) (genislik_m metraj cozgu_nm fire_orani : ℚ) : ℚ :=
  (reed : ℚ) * genislik_m * metraj / (cozgu_nm * 1000) * (1 + fire_orani)

/-- Function cozgu_iplik_hesapla of engine.py (warp yarn consumption, kg,
rounded to 2 decimals). -/
def cozgu_iplik_hesapla (reed : ℤ) (genislik_m metraj cozgu_nm fire_orani : ℚ) : Except String ℚ :=
  if cozgu_nm ≤ 0 then .error "Cozgu Nm pozitif olmali"
  else if genislik_m ≤ 0 ∨ metraj ≤ 0 then .error "Genislik ve metraj pozitif olmali."
  else .ok (roundQ 2 (cozgu_raw reed genislik_m metraj cozgu_nm fire_orani))

/-- Function uretim_suresi_hesapla of engine.py (production time). -/
def uretim_suresi_hesapla (metraj : ℚ) (atki_sikligi rpm : ℤ)
    (verimlilik_yuzde : ℚ) : Except String UretimSuresi :=
  if rpm ≤ 0 then .error "RPM pozitif olmali"
  else if ¬ (0 < verimlilik_yuzde ∧ verimlilik_yuzde ≤ 100) then .error "Verimlilik 0-100"
  else if metraj ≤ 0 then .error "Metraj pozitif olmali"
  else
    .ok { dakika := roundQ 1 ((metraj * (atki_sikligi : ℚ)) / ((rpm : ℚ) * (verimlilik_yuzde / 100)))
        , saat := roundQ 2 ((metraj * (atki_sikligi : ℚ)) / ((rpm : ℚ) * (verimlilik_yuzde / 100)) / 60)
        , gun_24h := roundQ 2 ((metraj * (atki_sikligi : ℚ)) / ((rpm : ℚ) * (verimlilik_yuzde / 100)) / 60 / 24)
        , is_gunu_8h := roundQ 1 ((metraj * (atki_sikligi : ℚ)) / ((rpm : ℚ) * (verimlilik_yuzde / 100)) / 60 / VARDIYA_SAATI)
        , vardiya_sayisi := roundQ 1 ((metraj * (atki_sikligi : ℚ)) / ((rpm : ℚ) * (verimlilik_yuzde / 100)) / 60 / VARDIYA_SAATI)
        , gun_3vardiya := roundQ 2 ((metraj * (atki_sikligi : ℚ)) / ((rpm : ℚ) * (verimlilik_yuzde / 100)) / 60 / 24) }

/-- Function creel_plani_hesapla of engine.py (creel layout). -/
def creel_plani_hesapla (reed : ℤ) (genislik_m : ℚ)
    (renk_sayisi creel_kapasitesi : ℤ) : Except String CreelPlan :=
  if renk_sayisi ≤ 0 then .error "Renk sayisi pozitif olmali"
  else if creel_kapasitesi ≤ 0 then .error "Creel kapasitesi pozitif olmali"
  else if genislik_m ≤ 0 then .error "Genislik pozitif olmali"
  else
    .ok { toplam_dis := truncQ ((reed : ℚ) * genislik_m)
        , renk_basi_dis := roundQ 1 ((truncQ ((reed : ℚ) * genislik_m) : ℚ) / (renk_sayisi : ℚ))
        , renk_basi_bobin := ⌈(truncQ ((reed : ℚ) * genislik_m) : ℚ) / (renk_sayisi : ℚ)⌉
        , toplam_bobin := ⌈(truncQ ((reed : ℚ) * genislik_m) : ℚ) / (renk_sayisi : ℚ)⌉ * renk_sayisi * 2
        , kapasite_asimi := decide (⌈(truncQ ((reed : ℚ) * genislik_m) : ℚ) / (renk_sayisi : ℚ)⌉ * renk_sayisi * 2 > creel_kapasitesi)
        , kullanim_orani := roundQ 4 ((⌈(truncQ ((reed : ℚ) * genislik_m) : ℚ) / (renk_sayisi : ℚ)⌉ * renk_sayisi * 2 : ℤ) / (creel_kapasitesi : ℚ)) }

/-- Function maliyet_hesapla of engine.py (cost).  Negative prices are
clamped to zero; the only validation is area greater than zero. -/
def maliyet_hesapla (hav_kg atki_kg cozgu_kg hav_fiyat atki_fiyat cozgu_fiyat alan_m2 : ℚ) :
    Except String MaliyetSonucu :=
  if alan_m2 ≤ 0 then .error "Alan m2 pozitif olmali"
  else
    .ok { hav_maliyet := roundQ 2 (hav_kg * max 0 hav_fiyat)
        , atki_maliyet := roundQ 2 (atki_kg * max 0 atki_fiyat)
        , cozgu_maliyet := roundQ 2 (cozgu_kg * max 0 cozgu_fiyat)
        , toplam := roundQ 2 (hav_kg * max 0 hav_fiyat + atki_kg * max 0 atki_fiyat + cozgu_kg * max 0 cozgu_fiyat)
        , maliyet_m2 := roundQ 2 ((hav_kg * max 0 hav_fiyat + atki_kg * max 0 atki_fiyat + cozgu_kg * max 0 cozgu_fiyat) / alan_m2) }

/-- The for-loop of fire_optimizasyon_simulasyonu: i is the current loop
index, the second natural number argument is the number of remaining
iterations.  The loop breaks (returning the rows so far) as soon as the
rounded candidate height drops to zero or below. -/
def fireLoop (dtex : ℚ) (reed pick : ℤ)
    (baglanti_mm fire_orani high_bulk alan_m2 baz_toplam hav_fiyat hav_mm adim_mm : ℚ) :
    ℕ → ℕ → Except String (List OptimizasyonSatiri)
  | _, 0 => .ok []
  | i, k + 1 =>
    if roundQ 2 (hav_mm - (i : ℚ) * adim_mm) ≤ 0 then .ok []
    else
      match hav_iplik_tuketimi_hesapla dtex reed pick (roundQ 2 (hav_mm - (i : ℚ) * adim_mm)) baglanti_mm fire_orani high_bulk with
      | .error e => .error e
      | .ok t =>
        match fireLoop dtex reed pick baglanti_mm fire_orani high_bulk alan_m2 baz_toplam hav_fiyat hav_mm adim_mm (i + 1) k with
        | .error e => .error e
        | .ok rest =>
          .ok ({ hav_mm := roundQ 2 (hav_mm - (i : ℚ) * adim_mm)
               , tuketim_kg_m2 := t
               , toplam_kg := roundQ 2 (t * alan_m2)
               , tasarruf_kg := roundQ 2 (baz_toplam - t * alan_m2)
               , tasarruf_tl := roundQ 2 (roundQ 2 (baz_toplam - t * alan_m2) * hav_fiyat) } :: rest)

/-- Function fire_optimizasyon_simulasyonu of engine.py (pile height
optimization sweep).  Python range(adim_sayisi + 1) is modelled by the
iteration count (adim_sayisi + 1).toNat, which is zero when adim_sayisi
is negative. -/
def fire_optimizasyon_simulasyonu (dtex : ℚ) (reed pick : ℤ)
    (hav_mm baglanti_mm fire_orani high_bulk genislik metraj hav_fiyat adim_mm : ℚ)
    (adim_sayisi : ℤ) : Except String (List OptimizasyonSatiri) :=
  if adim_mm ≤ 0 then .error "Adim mm pozitif olmali"
  else
    match hav_iplik_tuketimi_hesapla dtex reed pick hav_mm baglanti_mm fire_orani high_bulk with
    | .error e => .error e
    | .ok baz =>
      fireLoop dtex reed pick baglanti_mm fire_orani high_bulk (genislik * metraj)
        (baz * (genislik * metraj)) hav_fiyat hav_mm adim_mm 0 (adim_sayisi + 1).toNat

/-- Function hesapla of engine.py (the orchestrator). -/
def hesapla (g : UretimGirdileri) : Except String HesaplamaSonuclari :=
  match resolve_dtex_nm g.iplik_birimi g.iplik_degeri with
  | .error e => .error e
  | .ok (dtex, nm) =>
    match ne_to_nm g.atki_iplik_ne with
    | .error e => .error e
    | .ok atki_nm =>
      match hav_iplik_tuketimi_hesapla dtex g.tarak_no g.atki_sikligi g.hav_yuksekligi
          g.baglanti_payi g.fire_orani g.high_bulk_faktoru with
      | .error e => .error e
      | .ok hav_kg_m2 =>
        match atki_iplik_hesapla g.atki_sikligi g.hali_genisligi g.toplam_metraj atki_nm
            (g.fire_orani * (1 / 2)) with
        | .error e => .error e
        | .ok toplam_atki =>
          match cozgu_iplik_hesapla g.tarak_no g.hali_genisligi g.toplam_metraj g.cozgu_iplik_nm
              (g.fire_orani * (1 / 2)) with
          | .error e => .error e
          | .ok toplam_cozgu =>
            match uretim_suresi_hesapla g.toplam_metraj g.atki_sikligi g.makine_hizi g.verimlilik with
            | .error e => .error e
            | .ok sure =>
              match creel_plani_hesapla g.tarak_no g.hali_genisligi g.renk_sayisi g.creel_kapasitesi with
              | .error e => .error e
              | .ok creel =>
                match maliyet_hesapla (roundQ 2 (hav_kg_m2 * (g.hali_genisligi * g.toplam_metraj)))
                    toplam_atki toplam_cozgu
                    g.iplik_birim_fiyat g.atki_birim_fiyat g.cozgu_birim_fiyat
                    (g.hali_genisligi * g.toplam_metraj) with
                | .error e => .error e
                | .ok maliyet =>
                  .ok { dtex_degeri := roundQ 2 dtex
                      , nm_degeri := roundQ 3 nm
                      , atki_nm := roundQ 3 atki_nm
                      , hav_tuketim_kg_m2 := hav_kg_m2
                      , toplam_hav_kg := roundQ 2 (hav_kg_m2 * (g.hali_genisligi * g.toplam_metraj))
                      , toplam_atki_kg := toplam_atki
                      , toplam_cozgu_kg := toplam_cozgu
                      , toplam_iplik_kg := roundQ 2 (roundQ 2 (hav_kg_m2 * (g.hali_genisligi * g.toplam_metraj)) + toplam_atki + toplam_cozgu)
                      , alan_m2 := roundQ 2 (g.hali_genisligi * g.toplam_metraj)
                      , sure := sure
                      , creel := creel
                      , maliyet := maliyet }

/-- A sample input record, used only to instantiate theorems with
hypotheses on concrete data. -/
def sampleG : UretimGirdileri where
  tarak_no := 100
  atki_sikligi := 100
  hav_yuksekligi := 5
  baglanti_payi := 0
  fire_orani := 1 / 10
  high_bulk_faktoru := 1
  iplik_birimi := "dtex"
  iplik_degeri := 1000
  atki_iplik_ne := 10
  cozgu_iplik_nm := 10
  hali_genisligi := 1
  toplam_metraj := 100
  makine_hizi := 100
  verimlilik := 100
  creel_kapasitesi := 1000
  renk_sayisi := 1
  iplik_birim_fiyat := 1
  atki_birim_fiyat := 1
  cozgu_birim_fiyat := 1

/-- Lower bound of round-half-to-even: it never rounds below the floor. -/
theorem le_rhe (x : ℚ) : ⌊x⌋ ≤ rhe x := by
  unfold rhe; split_ifs <;> omega

/-- Upper bound of round-half-to-even: it never rounds above floor + 1. -/
theorem rhe_le (x : ℚ) : rhe x ≤ ⌊x⌋ + 1 := by
  unfold rhe; split_ifs <;> omega

/-- Round-half-to-even is monotone. -/
theorem rhe_mono {x y : ℚ} (hxy : x ≤ y) : rhe x ≤ rhe y := by
  rcases lt_or_eq_of_le (Int.floor_mono hxy) with hf | hf
  · calc rhe x ≤ ⌊x⌋ + 1 := rhe_le x
    _ ≤ ⌊y⌋ := by omega
    _ ≤ rhe y := le_rhe y
  · have hr : x - (⌊y⌋ : ℚ) ≤ y - (⌊y⌋ : ℚ) := by linarith
    unfold rhe
    rw [hf]
    split_ifs <;> first | omega | linarith

/-- Rounding to n decimal places is monotone. -/
theorem roundQ_mono (n : ℕ) {x y : ℚ} (hxy : x ≤ y) : roundQ n x ≤ roundQ n y := by
  unfold roundQ
  have h10 : (0 : ℚ) < 10 ^ n := by positivity
  have h1 : rhe (x * 10 ^ n) ≤ rhe (y * 10 ^ n) :=
    rhe_mono (mul_le_mul_of_nonneg_right hxy h10.le)
  exact (div_le_div_iff_of_pos_right h10).mpr (by exact_mod_cast h1)

/-- Validation-free reduction of the pile consumption calculator on valid
inputs: it returns the rounded formula value. -/
theorem hav_ok (dtex : ℚ) (reed pick : ℤ) (h b f hb : ℚ)
    (h1 : 0 < dtex) (h2 : 0 < reed) (h3 : 0 < pick) (h4 : 0 < h)
    (h5 : 0 ≤ b) (h6 : 0 ≤ f) (h7 : 1 ≤ hb) :
    hav_iplik_tuketimi_hesapla dtex reed pick h b f hb =
      .ok (roundQ 4 (hav_raw dtex reed pick h b f hb)) := by
  unfold hav_iplik_tuketimi_hesapla
  rw [if_neg (not_le.mpr h1), if_neg (not_le.mpr h2), if_neg (not_le.mpr h3),
    if_neg (not_le.mpr h4), if_neg (not_lt.mpr h5), if_neg (not_lt.mpr h6),
    if_neg (not_lt.mpr h7)]

/-- Validation-free reduction of the weft consumption calculator: the weft
insertion density is not checked, only yarn count, width and length are. -/
theorem atki_ok (pick : ℤ) (g m nm f : ℚ) (hnm : 0 < nm) (hg : 0 < g) (hm : 0 < m) :
    atki_iplik_hesapla pick g m nm f = .ok (roundQ 2 (atki_raw pick g m nm f)) := by
  unfold atki_iplik_hesapla
  rw [if_neg (not_le.mpr hnm), if_neg (by push_neg; exact ⟨hg, hm⟩)]

/-- Validation-free reduction of the warp consumption calculator. -/
theorem cozgu_ok (reed : ℤ) (g m nm f : ℚ) (hnm : 0 < nm) (hg : 0 < g) (hm : 0 < m) :
    cozgu_iplik_hesapla reed g m nm f = .ok (roundQ 2 (cozgu_raw reed g m nm f)) := by
  unfold cozgu_iplik_hesapla
  rw [if_neg (not_le.mpr hnm), if_neg (by push_neg; exact ⟨hg, hm⟩)]

/-- C1 counterexample: on masses (1000, 200, 150), prices (85, 35, 40) and
area 20000 the cost calculator returns grand total 98000 (not 98500: the
sum 1000*85 + 200*35 + 150*40 is 98000) and cost per square meter 4.9
(not 4.925). -/
theorem maliyet_scenarioC_refute :
    maliyet_hesapla 1000 200 150 85 35 40 20000 =
      .ok { hav_maliyet := 85000, atki_maliyet := 7000, cozgu_maliyet := 6000,
            toplam := 98000, maliyet_m2 := 49 / 10 } ∧
    (98000 : ℚ) ≠ 98500 ∧ (49 / 10 : ℚ) ≠ 4925 / 1000 :=
  ⟨by norm_num [maliyet_hesapla, roundQ, rhe, max_def], by norm_num, by norm_num⟩

/-- C1 amended: for the cost calculator called with masses (1000, 200, 150),
unit prices (85, 35, 40) and area 20000, the returned grand total equals
98000 and the returned cost per square meter equals 4.90, with category
costs 85000, 7000 and 6000. -/
theorem maliyet_scenarioC :
    maliyet_hesapla 1000 200 150 85 35 40 20000 =
      .ok { hav_maliyet := 85000, atki_maliyet := 7000, cozgu_maliyet := 6000,
            toplam := 98000, maliyet_m2 := 49 / 10 } := by
  norm_num [maliyet_hesapla, roundQ, rhe, max_def]

/-- C4 counterexample: the weft consumption calculator called with weft
insertion density 0 (which is outside the documented domain, an integer
greater than 0) and all other arguments valid does not fail: it returns
the value 0. -/
theorem atki_pick_nonpos_refute :
    atki_iplik_hesapla 0 1 1 1 (1 / 20) = .ok 0 := by
  norm_num [atki_iplik_hesapla, atki_raw, roundQ, rhe]

/-- C4 amended: the weft consumption calculator validates only its yarn
count, width and length, not the weft insertion density: with any pick
at most 0 and the other arguments valid it raises no error and returns
the rounded formula value. -/
theorem atki_pick_unvalidated (pick : ℤ) (g m nm f : ℚ)
    (_hpick : pick ≤ 0) (hnm : 0 < nm) (hg : 0 < g) (hm : 0 < m) :
    atki_iplik_hesapla pick g m nm f = .ok (roundQ 2 (atki_raw pick g m nm f)) :=
  atki_ok pick g m nm f hnm hg hm

/-- C4 witness: the amended statement at pick = -3, width 2, length 3,
yarn count 1, waste 0. -/
theorem atki_pick_unvalidated_witness :
    (-3 : ℤ) ≤ 0 ∧
      atki_iplik_hesapla (-3) 2 3 1 0 = .ok (roundQ 2 (atki_raw (-3) 2 3 1 0)) :=
  ⟨by norm_num,
    atki_pick_unvalidated (-3) 2 3 1 0 (by norm_num) (by norm_num) (by norm_num) (by norm_num)⟩

/-- C5 counterexample: doubling the length does not always double the
returned (2-decimal rounded) weft mass: with pick 4, width 1, yarn count
Nm 1, waste 0 the mass at length 1 is 0.00 while the mass at length 2 is
0.01, and 0.01 is not 2 * 0.00. -/
theorem atki_doubling_refute :
    atki_iplik_hesapla 4 1 1 1 0 = .ok 0 ∧
    atki_iplik_hesapla 4 1 2 1 0 = .ok (1 / 100) ∧
    (1 / 100 : ℚ) ≠ 2 * 0 :=
  ⟨by norm_num [atki_iplik_hesapla, atki_raw, roundQ, rhe],
    by norm_num [atki_iplik_hesapla, atki_raw, roundQ, rhe], by norm_num⟩

/-- C5 amended: doubling the total length doubles the weft mass before the
final 2-decimal rounding: at doubled length the calculator returns the
rounding of exactly twice the unrounded mass at the original length; the
same holds for the warp calculator with respect to width. -/
theorem atki_cozgu_unrounded_linear (pick reed : ℤ) (g m nm cnm f : ℚ)
    (hnm : 0 < nm) (hcnm : 0 < cnm) (hg : 0 < g) (hm : 0 < m) :
    atki_iplik_hesapla pick g (2 * m) nm f = .ok (roundQ 2 (2 * atki_raw pick g m nm f)) ∧
    cozgu_iplik_hesapla reed (2 * g) m cnm f = .ok (roundQ 2 (2 * cozgu_raw reed g m cnm f)) := by
  constructor
  · rw [atki_ok pick g (2 * m) nm f hnm hg (by linarith)]
    congr 1
    unfold atki_raw
    ring_nf
  · rw [cozgu_ok reed (2 * g) m cnm f hcnm (by linarith) hm]
    congr 1
    unfold cozgu_raw
    ring_nf

/-- C5 witness: the amended statement at pick = 4, reed = 6, width 1,
length 1, both yarn counts 1, waste 0. -/
theorem atki_cozgu_unrounded_linear_witness :
    atki_iplik_hesapla 4 1 (2 * 1) 1 0 = .ok (roundQ 2 (2 * atki_raw 4 1 1 1 0)) ∧
    cozgu_iplik_hesapla 6 (2 * 1) 1 1 0 = .ok (roundQ 2 (2 * cozgu_raw 6 1 1 1 0)) :=
  atki_cozgu_unrounded_linear 4 6 1 1 1 1 0 (by norm_num) (by norm_num) (by norm_num) (by norm_num)

/-- C7: for every dtex greater than 0, converting to Nm and back returns
exactly the original value, and for every Ne greater than 0, converting
to Nm and back returns exactly the original value (exact equality, hence
within any floating-point tolerance). -/
theorem conversion_roundtrip (d ne : ℚ) (hd : 0 < d) (hne : 0 < ne) :
    (dtex_to_nm d).bind nm_to_dtex = .ok d ∧
    (ne_to_nm ne).bind nm_to_ne = .ok ne := by
  constructor
  · have hbase : (0 : ℚ) < DTEX_NM_BASE := by norm_num [DTEX_NM_BASE]
    rw [dtex_to_nm, if_neg (not_le.mpr hd)]
    show nm_to_dtex (DTEX_NM_BASE / d) = .ok d
    rw [nm_to_dtex, if_neg (not_le.mpr (div_pos hbase hd))]
    congr 1
    field_simp
  · have hfac : (0 : ℚ) < NE_TO_NM_FACTOR := by norm_num [NE_TO_NM_FACTOR]
    rw [ne_to_nm, if_neg (not_le.mpr hne)]
    show nm_to_ne (ne * NE_TO_NM_FACTOR) = .ok ne
    rw [nm_to_ne, if_neg (not_le.mpr (mul_pos hne hfac))]
    congr 1
    exact mul_div_cancel_right₀ ne hfac.ne'

/-- C7 witness: the round trips at dtex = 4 and Ne = 2. -/
theorem conversion_roundtrip_witness :
    (0 : ℚ) < 4 ∧
      (dtex_to_nm 4).bind nm_to_dtex = .ok 4 ∧ (ne_to_nm 2).bind nm_to_ne = .ok 2 :=
  ⟨by norm_num, conversion_roundtrip 4 2 (by norm_num) (by norm_num)⟩

/-- C9 counterexample: with area 1 and pile mass -1 at clamped price 0.001
the returned pile category cost is 0.00 (the 2-decimal rounding of
-0.001), which is not equal to the mass times the clamped price. -/
theorem maliyet_negative_mass_refute :
    maliyet_hesapla (-1) 0 0 (1 / 1000) 0 0 1 =
      .ok { hav_maliyet := 0, atki_maliyet := 0, cozgu_maliyet := 0,
            toplam := 0, maliyet_m2 := 0 } ∧
    (0 : ℚ) ≠ (-1) * (1 / 1000) :=
  ⟨by norm_num [maliyet_hesapla, roundQ, rhe, max_def], by norm_num⟩

/-- C9 amended: the cost calculator fails exactly when the area is at most
0; for every positive area it returns a result even for negative masses,
each category cost being the 2-decimal rounding of the mass times the
clamped non-negative price (so category costs and the grand total can be
negative). -/
theorem maliyet_error_iff_area (hk ak ck hf af cf alan : ℚ) :
    (alan ≤ 0 → maliyet_hesapla hk ak ck hf af cf alan = .error "Alan m2 pozitif olmali") ∧
    (0 < alan → maliyet_hesapla hk ak ck hf af cf alan =
      .ok { hav_maliyet := roundQ 2 (hk * max 0 hf)
          , atki_maliyet := roundQ 2 (ak * max 0 af)
          , cozgu_maliyet := roundQ 2 (ck * max 0 cf)
          , toplam := roundQ 2 (hk * max 0 hf + ak * max 0 af + ck * max 0 cf)
          , maliyet_m2 := roundQ 2 ((hk * max 0 hf + ak * max 0 af + ck * max 0 cf) / alan) }) := by
  constructor
  · intro h
    rw [maliyet_hesapla, if_pos h]
  · intro h
    rw [maliyet_hesapla, if_neg (not_le.mpr h)]

/-- C9 witness: the amended statement at masses (-1, 0, 0), prices
(1, 0, 0) and area 1; the returned pile category cost is -1, which is
negative. -/
theorem maliyet_error_iff_area_witness :
    (0 : ℚ) < 1 ∧
      maliyet_hesapla (-1) 0 0 1 0 0 1 =
        .ok { hav_maliyet := roundQ 2 ((-1) * max 0 1)
            , atki_maliyet := roundQ 2 (0 * max 0 0)
            , cozgu_maliyet := roundQ 2 (0 * max 0 0)
            , toplam := roundQ 2 ((-1) * max 0 1 + 0 * max 0 0 + 0 * max 0 0)
            , maliyet_m2 := roundQ 2 (((-1) * max 0 1 + 0 * max 0 0 + 0 * max 0 0) / 1) } ∧
      roundQ 2 ((-1) * max 0 1) < 0 :=
  ⟨by norm_num, (maliyet_error_iff_area (-1) 0 0 1 0 0 1).2 (by norm_num),
    by norm_num [roundQ, rhe, max_def]⟩

/-- C2 counterexample: strictly increasing the pile height from 1 mm to
1.1 mm (all other inputs fixed and valid) does not strictly increase the
returned consumption: both calls return exactly 0 because the value is
rounded to 4 decimal places. -/
theorem hav_strict_mono_refute :
    hav_iplik_tuketimi_hesapla 1 1 1 1 0 0 1 = .ok 0 ∧
    hav_iplik_tuketimi_hesapla 1 1 1 (11 / 10) 0 0 1 = .ok 0 ∧ ¬ ((0 : ℚ) < 0) :=
  ⟨by norm_num [hav_iplik_tuketimi_hesapla, hav_raw, HAV_FORMULA_DIVISOR, roundQ, rhe],
    by norm_num [hav_iplik_tuketimi_hesapla, hav_raw, HAV_FORMULA_DIVISOR, roundQ, rhe],
    by norm_num⟩

/-- C2 amended: for every valid input to the pile consumption calculator,
strictly increasing any one of pile height, linear density (dtex), waste
fraction, or high-bulk factor while holding all other inputs fixed never
decreases the returned (4-decimal rounded) consumption value; the strict
increase of the unrounded value can be lost to rounding. -/
theorem hav_tuketim_weak_mono (dtex : ℚ) (reed pick : ℤ) (h b f hb : ℚ)
    (h1 : 0 < dtex) (h2 : 0 < reed) (h3 : 0 < pick) (h4 : 0 < h)
    (h5 : 0 ≤ b) (h6 : 0 ≤ f) (h7 : 1 ≤ hb) :
    (∀ h9 t u, h < h9 →
        hav_iplik_tuketimi_hesapla dtex reed pick h b f hb = .ok t →
        hav_iplik_tuketimi_hesapla dtex reed pick h9 b f hb = .ok u → t ≤ u) ∧
    (∀ d9 t u, dtex < d9 →
        hav_iplik_tuketimi_hesapla dtex reed pick h b f hb = .ok t →
        hav_iplik_tuketimi_hesapla d9 reed pick h b f hb = .ok u → t ≤ u) ∧
    (∀ f9 t u, f < f9 →
        hav_iplik_tuketimi_hesapla dtex reed pick h b f hb = .ok t →
        hav_iplik_tuketimi_hesapla dtex reed pick h b f9 hb = .ok u → t ≤ u) ∧
    (∀ hb9 t u, hb < hb9 →
        hav_iplik_tuketimi_hesapla dtex reed pick h b f hb = .ok t →
        hav_iplik_tuketimi_hesapla dtex reed pick h b f hb9 = .ok u → t ≤ u) := by
  have hr : (0 : ℚ) < (reed : ℚ) := by exact_mod_cast h2
  have hp : (0 : ℚ) < (pick : ℚ) := by exact_mod_cast h3
  have h8 : (0 : ℚ) < hb := lt_of_lt_of_le one_pos h7
  refine ⟨?_, ?_, ?_, ?_⟩
  · intro h9 t u hlt e1 e2
    rw [hav_ok dtex reed pick h b f hb h1 h2 h3 h4 h5 h6 h7] at e1
    rw [hav_ok dtex reed pick h9 b f hb h1 h2 h3 (h4.trans hlt) h5 h6 h7] at e2
    obtain rfl := Except.ok.inj e1
    obtain rfl := Except.ok.inj e2
    apply roundQ_mono
    unfold hav_raw
    gcongr
    norm_num [HAV_FORMULA_DIVISOR]
  · intro d9 t u hlt e1 e2
    rw [hav_ok dtex reed pick h b f hb h1 h2 h3 h4 h5 h6 h7] at e1
    rw [hav_ok d9 reed pick h b f hb (h1.trans hlt) h2 h3 h4 h5 h6 h7] at e2
    obtain rfl := Except.ok.inj e1
    obtain rfl := Except.ok.inj e2
    apply roundQ_mono
    unfold hav_raw
    gcongr
    norm_num [HAV_FORMULA_DIVISOR]
  · intro f9 t u hlt e1 e2
    rw [hav_ok dtex reed pick h b f hb h1 h2 h3 h4 h5 h6 h7] at e1
    rw [hav_ok dtex reed pick h b f9 hb h1 h2 h3 h4 h5 (h6.trans hlt.le) h7] at e2
    obtain rfl := Except.ok.inj e1
    obtain rfl := Except.ok.inj e2
    apply roundQ_mono
    unfold hav_raw
    gcongr
    norm_num [HAV_FORMULA_DIVISOR]
  · intro hb9 t u hlt e1 e2
    rw [hav_ok dtex reed pick h b f hb h1 h2 h3 h4 h5 h6 h7] at e1
    rw [hav_ok dtex reed pick h b f hb9 h1 h2 h3 h4 h5 h6 (h7.trans hlt.le)] at e2
    obtain rfl := Except.ok.inj e1
    obtain rfl := Except.ok.inj e2
    apply roundQ_mono
    unfold hav_raw
    gcongr
    norm_num [HAV_FORMULA_DIVISOR]

/-- C2 witness: the pile-height conjunct of the amended statement at
dtex = 1000, reed = 10, pick = 10, heights 1 mm and 2 mm, where both
returned values are 0. -/
theorem hav_tuketim_weak_mono_witness :
    (0 : ℚ) < 1000 ∧ ((0 : ℚ) ≤ 0) :=
  ⟨by norm_num,
    (hav_tuketim_weak_mono 1000 10 10 1 0 0 1 (by norm_num) (by norm_num) (by norm_num)
        (by norm_num) (by norm_num) (by norm_num) (by norm_num)).1 2 0 0 (by norm_num)
      (by norm_num [hav_iplik_tuketimi_hesapla, hav_raw, HAV_FORMULA_DIVISOR, roundQ, rhe])
      (by norm_num [hav_iplik_tuketimi_hesapla, hav_raw, HAV_FORMULA_DIVISOR, roundQ, rhe])⟩

/-- Head of a non-empty successful loop result: the first emitted row
carries the rounded candidate height of the current index. -/
theorem fireLoop_head_hav (dtex : ℚ) (reed pick : ℤ)
    (b f hb alan bazT fiyat hav adim : ℚ) :
    ∀ (k i : ℕ) (r : OptimizasyonSatiri) (l : List OptimizasyonSatiri),
      fireLoop dtex reed pick b f hb alan bazT fiyat hav adim i k = .ok (r :: l) →
      r.hav_mm = roundQ 2 (hav - (i : ℚ) * adim) := by
  intro k i r l hok
  match k with
  | 0 => simp [fireLoop] at hok
  | Nat.succ k =>
    simp only [fireLoop] at hok
    by_cases hc : roundQ 2 (hav - (i : ℚ) * adim) ≤ 0
    · rw [if_pos hc] at hok
      simp at hok
    · rw [if_neg hc] at hok
      cases ht : hav_iplik_tuketimi_hesapla dtex reed pick (roundQ 2 (hav - (i : ℚ) * adim)) b f hb with
      | error e => rw [ht] at hok; simp at hok
      | ok t =>
        rw [ht] at hok
        cases hrest : fireLoop dtex reed pick b f hb alan bazT fiyat hav adim (i + 1) k with
        | error e => rw [hrest] at hok; simp at hok
        | ok rest =>
          rw [hrest] at hok
          simp only [Except.ok.injEq, List.cons.injEq] at hok
          rw [← hok.1]

/-- Successful loop results have weakly decreasing pile heights when the
step size is non-negative. -/
theorem fireLoop_chain (dtex : ℚ) (reed pick : ℤ)
    (b f hb alan bazT fiyat hav adim : ℚ) (hadim : 0 ≤ adim) :
    ∀ (k i : ℕ) (l : List OptimizasyonSatiri),
      fireLoop dtex reed pick b f hb alan bazT fiyat hav adim i k = .ok l →
      List.Chain' (fun a c => c.hav_mm ≤ a.hav_mm) l := by
  intro k
  induction k with
  | zero =>
    intro i l hok
    simp only [fireLoop, Except.ok.injEq] at hok
    rw [← hok]
    exact List.chain'_nil
  | succ k ih =>
    intro i l hok
    simp only [fireLoop] at hok
    by_cases hc : roundQ 2 (hav - (i : ℚ) * adim) ≤ 0
    · rw [if_pos hc] at hok
      simp only [Except.ok.injEq] at hok
      rw [← hok]
      exact List.chain'_nil
    · rw [if_neg hc] at hok
      cases ht : hav_iplik_tuketimi_hesapla dtex reed pick (roundQ 2 (hav - (i : ℚ) * adim)) b f hb with
      | error e => rw [ht] at hok; simp at hok
      | ok t =>
        rw [ht] at hok
        cases hrest : fireLoop dtex reed pick b f hb alan bazT fiyat hav adim (i + 1) k with
        | error e => rw [hrest] at hok; simp at hok
        | ok rest =>
          rw [hrest] at hok
          simp only [Except.ok.injEq] at hok
          rw [← hok]
          refine List.chain'_cons'.mpr ⟨?_, ih (i + 1) rest hrest⟩
          intro y hy
          cases rest with
          | nil => simp at hy
          | cons r0 rest0 =>
            simp only [List.head?_cons, Option.mem_def, Option.some.injEq] at hy
            rw [← hy]
            have hy0 := fireLoop_head_hav dtex reed pick b f hb alan bazT fiyat hav adim k (i + 1) r0 rest0 hrest
            rw [hy0]
            apply roundQ_mono
            push_cast
            have : (i : ℚ) * adim ≤ ((i : ℚ) + 1) * adim := by nlinarith
            linarith

/-- C3 amended: every successful call of the pile-height optimization
sweep returns rows ordered by weakly decreasing pile height; strictness
can be lost because each candidate height is rounded to 2 decimals, so a
step size below the rounding granularity can repeat a height. -/
theorem fire_opt_heights_antitone (dtex : ℚ) (reed pick : ℤ)
    (hav b f hb gen met fiyat adim : ℚ) (n : ℤ) (l : List OptimizasyonSatiri)
    (hok : fire_optimizasyon_simulasyonu dtex reed pick hav b f hb gen met fiyat adim n = .ok l) :
    List.Chain' (fun a c => c.hav_mm ≤ a.hav_mm) l := by
  unfold fire_optimizasyon_simulasyonu at hok
  by_cases ha : adim ≤ 0
  · rw [if_pos ha] at hok
    simp at hok
  · rw [if_neg ha] at hok
    cases hbz : hav_iplik_tuketimi_hesapla dtex reed pick hav b f hb with
    | error e => rw [hbz] at hok; simp at hok
    | ok baz =>
      rw [hbz] at hok
      exact fireLoop_chain dtex reed pick b f hb (gen * met) (baz * (gen * met)) fiyat hav adim
        (le_of_lt (not_le.mp ha)) ((n + 1).toNat) 0 l hok

/-- C3 witness: the amended statement on the concrete sweep from height
5 mm with step 1 mm and one step, whose two rows have heights 5 and 4. -/
theorem fire_opt_heights_antitone_witness :
    List.Chain' (fun a c => c.hav_mm ≤ a.hav_mm)
      [({ hav_mm := 5, tuketim_kg_m2 := 1 / 100, toplam_kg := 1 / 100,
          tasarruf_kg := 0, tasarruf_tl := 0 } : OptimizasyonSatiri),
        { hav_mm := 4, tuketim_kg_m2 := 1 / 125, toplam_kg := 1 / 100,
          tasarruf_kg := 0, tasarruf_tl := 0 }] :=
  fire_opt_heights_antitone 1000 100 100 5 0 0 1 1 1 1 1 1 _
    (by norm_num [fire_optimizasyon_simulasyonu, fireLoop, hav_iplik_tuketimi_hesapla,
      hav_raw, HAV_FORMULA_DIVISOR, roundQ, rhe])

/-- C3 counterexample: with step size 0.001 mm (positive) and one step,
the sweep from height 5 mm emits two rows with the same rounded height 5,
so the rows are not strictly ordered by decreasing pile height. -/
theorem fire_opt_strict_refute :
    fire_optimizasyon_simulasyonu 1000 100 100 5 0 0 1 1 1 1 (1 / 1000) 1 =
      .ok [{ hav_mm := 5, tuketim_kg_m2 := 1 / 100, toplam_kg := 1 / 100,
             tasarruf_kg := 0, tasarruf_tl := 0 },
           { hav_mm := 5, tuketim_kg_m2 := 1 / 100, toplam_kg := 1 / 100,
             tasarruf_kg := 0, tasarruf_tl := 0 }] ∧
    ¬ List.Chain' (fun a c => c.hav_mm < a.hav_mm)
      [({ hav_mm := 5, tuketim_kg_m2 := 1 / 100, toplam_kg := 1 / 100,
          tasarruf_kg := 0, tasarruf_tl := 0 } : OptimizasyonSatiri),
        { hav_mm := 5, tuketim_kg_m2 := 1 / 100, toplam_kg := 1 / 100,
          tasarruf_kg := 0, tasarruf_tl := 0 }] := by
  constructor
  · norm_num [fire_optimizasyon_simulasyonu, fireLoop, hav_iplik_tuketimi_hesapla,
      hav_raw, HAV_FORMULA_DIVISOR, roundQ, rhe]
  · simp

/-- C10: the pile-height optimization sweep called with a negative step
count and otherwise valid parameters returns the empty list without any
error: no baseline row is emitted. -/
theorem fire_opt_negative_steps_empty (dtex : ℚ) (reed pick : ℤ)
    (hav b f hb gen met fiyat adim : ℚ) (n : ℤ)
    (hadim : 0 < adim) (hn : n < 0) (h1 : 0 < dtex) (h2 : 0 < reed) (h3 : 0 < pick)
    (h4 : 0 < hav) (h5 : 0 ≤ b) (h6 : 0 ≤ f) (h7 : 1 ≤ hb) :
    fire_optimizasyon_simulasyonu dtex reed pick hav b f hb gen met fiyat adim n = .ok [] := by
  unfold fire_optimizasyon_simulasyonu
  rw [if_neg (not_le.mpr hadim), hav_ok dtex reed pick hav b f hb h1 h2 h3 h4 h5 h6 h7]
  rw [show (n + 1).toNat = 0 from Int.toNat_of_nonpos (by omega)]
  rfl

/-- C10 witness: the sweep at step count -1 with concrete valid
parameters returns the empty list. -/
theorem fire_opt_negative_steps_empty_witness :
    fire_optimizasyon_simulasyonu 1000 100 100 5 0 0 1 1 1 1 1 (-1) = .ok [] :=
  fire_opt_negative_steps_empty 1000 100 100 5 0 0 1 1 1 1 1 (-1) (by norm_num) (by norm_num)
    (by norm_num) (by norm_num) (by norm_num) (by norm_num) (by norm_num) (by norm_num)
    (by norm_num)

/-- C6: whenever the orchestrator succeeds, its weft and warp total
masses are exactly the results of the weft and warp calculators called
with half of the input waste fraction, while the pile consumption is the
result of the pile calculator called with the full waste fraction. -/
theorem hesapla_half_waste (g : UretimGirdileri) (r : HesaplamaSonuclari)
    (hok : hesapla g = .ok r) :
    ∃ p anm,
      resolve_dtex_nm g.iplik_birimi g.iplik_degeri = .ok p ∧
      ne_to_nm g.atki_iplik_ne = .ok anm ∧
      hav_iplik_tuketimi_hesapla p.1 g.tarak_no g.atki_sikligi g.hav_yuksekligi
        g.baglanti_payi g.fire_orani g.high_bulk_faktoru = .ok r.hav_tuketim_kg_m2 ∧
      atki_iplik_hesapla g.atki_sikligi g.hali_genisligi g.toplam_metraj anm
        (g.fire_orani / 2) = .ok r.toplam_atki_kg ∧
      cozgu_iplik_hesapla g.tarak_no g.hali_genisligi g.toplam_metraj g.cozgu_iplik_nm
        (g.fire_orani / 2) = .ok r.toplam_cozgu_kg := by
  unfold hesapla at hok
  cases h1 : resolve_dtex_nm g.iplik_birimi g.iplik_degeri with
  | error e => rw [h1] at hok; simp at hok
  | ok p =>
    obtain ⟨dtex, nm⟩ := p
    rw [h1] at hok
    dsimp only at hok
    cases h2 : ne_to_nm g.atki_iplik_ne with
    | error e => rw [h2] at hok; simp at hok
    | ok anm =>
      rw [h2] at hok
      dsimp only at hok
      cases h3 : hav_iplik_tuketimi_hesapla dtex g.tarak_no g.atki_sikligi g.hav_yuksekligi
          g.baglanti_payi g.fire_orani g.high_bulk_faktoru with
      | error e => rw [h3] at hok; simp at hok
      | ok hav_kg_m2 =>
        rw [h3] at hok
        dsimp only at hok
        cases h4 : atki_iplik_hesapla g.atki_sikligi g.hali_genisligi g.toplam_metraj anm
            (g.fire_orani * (1 / 2)) with
        | error e => rw [h4] at hok; simp at hok
        | ok toplam_atki =>
          rw [h4] at hok
          dsimp only at hok
          cases h5 : cozgu_iplik_hesapla g.tarak_no g.hali_genisligi g.toplam_metraj
              g.cozgu_iplik_nm (g.fire_orani * (1 / 2)) with
          | error e => rw [h5] at hok; simp at hok
          | ok toplam_cozgu =>
            rw [h5] at hok
            dsimp only at hok
            cases h6 : uretim_suresi_hesapla g.toplam_metraj g.atki_sikligi g.makine_hizi
                g.verimlilik with
            | error e => rw [h6] at hok; simp at hok
            | ok sure =>
              rw [h6] at hok
              dsimp only at hok
              cases h7 : creel_plani_hesapla g.tarak_no g.hali_genisligi g.renk_sayisi
                  g.creel_kapasitesi with
              | error e => rw [h7] at hok; simp at hok
              | ok creel =>
                rw [h7] at hok
                dsimp only at hok
                cases h8 : maliyet_hesapla
                    (roundQ 2 (hav_kg_m2 * (g.hali_genisligi * g.toplam_metraj)))
                    toplam_atki toplam_cozgu g.iplik_birim_fiyat g.atki_birim_fiyat
                    g.cozgu_birim_fiyat (g.hali_genisligi * g.toplam_metraj) with
                | error e => rw [h8] at hok; simp at hok
                | ok maliyet =>
                  rw [h8] at hok
                  dsimp only at hok
                  obtain rfl := (Except.ok.inj hok).symm
                  rw [mul_one_div] at h4 h5
                  exact ⟨(dtex, nm), anm, rfl, rfl, h3, h4, h5⟩

/-- C6 witness: the orchestrator on the sample input uses waste 0.05
(half of the nominal 0.10) for the weft and warp totals 0.64 and 1.05,
and the full 0.10 for the pile consumption 0.011. -/
theorem hesapla_half_waste_witness :
    ∃ p anm,
      resolve_dtex_nm sampleG.iplik_birimi sampleG.iplik_degeri = .ok p ∧
      ne_to_nm sampleG.atki_iplik_ne = .ok anm ∧
      hav_iplik_tuketimi_hesapla p.1 sampleG.tarak_no sampleG.atki_sikligi
        sampleG.hav_yuksekligi sampleG.baglanti_payi sampleG.fire_orani
        sampleG.high_bulk_faktoru = .ok (11 / 1000) ∧
      atki_iplik_hesapla sampleG.atki_sikligi sampleG.hali_genisligi sampleG.toplam_metraj anm
        (sampleG.fire_orani / 2) = .ok (16 / 25) ∧
      cozgu_iplik_hesapla sampleG.tarak_no sampleG.hali_genisligi sampleG.toplam_metraj
        sampleG.cozgu_iplik_nm (sampleG.fire_orani / 2) = .ok (21 / 20) :=
  hesapla_half_waste sampleG
    { dtex_degeri := 1000, nm_degeri := 10, atki_nm := 3307 / 200,
      hav_tuketim_kg_m2 := 11 / 1000, toplam_hav_kg := 11 / 10, toplam_atki_kg := 16 / 25,
      toplam_cozgu_kg := 21 / 20, toplam_iplik_kg := 279 / 100, alan_m2 := 100,
      sure := { dakika := 100, saat := 167 / 100, gun_24h := 7 / 100, is_gunu_8h := 1 / 5,
                vardiya_sayisi := 1 / 5, gun_3vardiya := 7 / 100 },
      creel := { toplam_dis := 100, renk_basi_dis := 100, renk_basi_bobin := 100,
                 toplam_bobin := 200, kapasite_asimi := false, kullanim_orani := 1 / 5 },
      maliyet := { hav_maliyet := 11 / 10, atki_maliyet := 16 / 25, cozgu_maliyet := 21 / 20,
                   toplam := 279 / 100, maliyet_m2 := 3 / 100 } }
    (by norm_num [hesapla, sampleG, resolve_dtex_nm, dtex_to_nm, ne_to_nm,
      hav_iplik_tuketimi_hesapla, hav_raw, atki_iplik_hesapla, atki_raw,
      cozgu_iplik_hesapla, cozgu_raw, uretim_suresi_hesapla, creel_plani_hesapla,
      maliyet_hesapla, roundQ, rhe, truncQ, NE_TO_NM_FACTOR, DTEX_NM_BASE,
      HAV_FORMULA_DIVISOR, VARDIYA_SAATI, max_def])

/-- C8: for every valid time-calculator input the returned workdays(8h)
field and shift-count field hold the identical value, both the 1-decimal
rounding of hours divided by 8. -/
theorem uretim_is_gunu_eq_vardiya (metraj : ℚ) (pick rpm : ℤ) (ver : ℚ)
    (hm : 0 < metraj) (_hp : 0 < pick) (hr : 0 < rpm) (hv1 : 0 < ver) (hv2 : ver ≤ 100) :
    ∃ r, uretim_suresi_hesapla metraj pick rpm ver = .ok r ∧
      r.is_gunu_8h = r.vardiya_sayisi ∧
      r.vardiya_sayisi = roundQ 1 (metraj * (pick : ℚ) / ((rpm : ℚ) * (ver / 100)) / 60 / 8) := by
  unfold uretim_suresi_hesapla
  rw [if_neg (not_le.mpr hr), if_neg (not_not_intro ⟨hv1, hv2⟩), if_neg (not_le.mpr hm)]
  exact ⟨_, rfl, rfl, rfl⟩

/-- C8 witness: the time calculator at length 100, pick 100, speed 100,
efficiency 100. -/
theorem uretim_is_gunu_eq_vardiya_witness :
    ∃ r, uretim_suresi_hesapla 100 100 100 100 = .ok r ∧
      r.is_gunu_8h = r.vardiya_sayisi ∧
      r.vardiya_sayisi =
        roundQ 1 (100 * ((100 : ℤ) : ℚ) / (((100 : ℤ) : ℚ) * (100 / 100)) / 60 / 8) :=
  uretim_is_gunu_eq_vardiya 100 100 100 100 (by norm_num) (by norm_num) (by norm_num)
    (by norm_num) (by norm_num)

end Engine

